import Mathlib

/-
Verification of the job-lifecycle core of `src/app.py` (AlphaAgent API).

The embedding below translates the Python source into Lean:
  * `Job` is the per-job dictionary created at `app.py:100-108`.
  * `run_analysis` (app.py:127-199) is embedded as a function from the
    created record to the list of record states after each individual
    dictionary assignment, in program order.  The two fallible collaborator
    calls — `get_chromarag()` (app.py:141) and `crew.kickoff(...)`
    (app.py:171, together with the `InvestmentCrew` setup it consumes) —
    are parameters of type `Except`: an `.error e` value plays the role of
    the Python exception `e`, transferring control to the `except` block
    (app.py:191-199).
  * `analysis_jobs` (app.py:28) is embedded as an association list; the
    raw dictionary item assignment `analysis_jobs[job_id][...] = v` is
    `updateJob`, which returns the `KeyError` as an `Except.error` when
    the id is absent, exactly as a Python dict lookup does.
  * The SSE generator (app.py:220-240) is `generate`, driven by the
    sequence of store contents it observes at each iteration of its loop,
    with explicit fuel standing for the number of loop iterations allowed.
  * `upload_document` (app.py:46-90) and `get_recent_analyses`
    (app.py:244-259) are embedded directly.
-/

namespace AlphaAgent

/-- Status values used by the code (app.py:36): "pending", "processing",
"completed", "failed". -/
inductive Status where
  | pending
  | processing
  | completed
  | failed
deriving DecidableEq, Repr

/-- Terminal check used by the stream generator (app.py:237):
`job["status"] in ["completed", "failed"]`. -/
def Status.isTerminal : Status → Bool
  | Status.completed => true
  | Status.failed => true
  | _ => false

/-- Result dictionary built at app.py:178-182:
`{"stock_ticker": ..., "timestamp": ..., "summary": str(result)}`. -/
structure AnalysisResult where
  stock_ticker : String
  timestamp : String
  summary : String
deriving DecidableEq, Repr

/-- One job record of the `analysis_jobs` dictionary, with the fields the
code stores (app.py:100-108). `progress` is a Python `int`; the code only
ever assigns the literals 0,10,20,30,50,80,100, so `Nat` loses nothing. -/
structure Job where
  status : Status
  progress : Nat
  message : String
  stock_ticker : String
  created_at : String
  result : Option AnalysisResult
  error : Option String
deriving DecidableEq, Repr

/-- Record inserted by `analyze_stock` at creation (app.py:100-108). -/
def initJob (ticker created : String) : Job :=
  { status := Status.pending
    progress := 0
    message := "Analysis job created"
    stock_ticker := ticker
    created_at := created
    result := none
    error := none }

/-- Environment of one `run_analysis` execution: the outcomes of the two
collaborator calls and the timestamp taken at app.py:180.
`docIndex` is the outcome of `get_chromarag()` (app.py:141): an exception,
or `none`/a handle (the handle itself carries no information the job-store
logic reads, so it is `Unit`).  `kickoff` is the outcome of the analysis
collaborator (`InvestmentCrew` setup plus `crew.kickoff`, app.py:159-171):
an exception, or the stringified result `str(result)` (app.py:181). -/
structure RunEnv where
  docIndex : Except String (Option Unit)
  kickoff : Except String String
  now : String

/-- States written by the `except` block (app.py:197-199), in statement
order: status, then error, then message. -/
def failStates (j : Job) (e : String) : List Job :=
  let f1 := { j with status := Status.failed }
  let f2 := { f1 with error := some e }
  let f3 := { f2 with message := "Analysis failed: " ++ e }
  [f1, f2, f3]

/-- Tail of `run_analysis` from app.py:154 on (progress 30 checkpoint,
crew construction, kickoff, completion), starting from record state `j`,
with `acc` the states already produced.  Each list element is the record
state after one dictionary assignment. -/
def run_analysis_tail (ticker : String) (env : RunEnv) (j : Job) (acc : List Job) : List Job :=
  let s7 := { j with progress := 30 }
  let s8 := { s7 with message := "Starting fundamental analysis..." }
  let s9 := { s8 with progress := 50 }
  let s10 := { s9 with message := "Performing valuation analysis..." }
  match env.kickoff with
  | Except.error e => acc ++ [s7, s8, s9, s10] ++ failStates s10 e
  | Except.ok summary =>
    let s11 := { s10 with progress := 80 }
    let s12 := { s11 with message := "Analyzing market sentiment..." }
    let ar : AnalysisResult :=
      { stock_ticker := ticker, timestamp := env.now, summary := summary }
    let s13 := { s12 with status := Status.completed }
    let s14 := { s13 with progress := 100 }
    let s15 := { s14 with message := "Analysis completed successfully" }
    let s16 := { s15 with result := some ar }
    acc ++ [s7, s8, s9, s10, s11, s12, s13, s14, s15, s16]

/-- Embedding of `run_analysis` (app.py:127-199) acting on the job record
`j0` it was scheduled for.  The value is the list of record states after
each successive dictionary assignment, in program order; the last element
is the state in which the function returns.  Exceptions from the two
collaborator calls divert control to `failStates` (the `except` block). -/
def run_analysis (ticker : String) (includeDocs : Bool) (env : RunEnv) (j0 : Job) : List Job :=
  let s1 := { j0 with status := Status.processing }
  let s2 := { s1 with progress := 10 }
  let s3 := { s2 with message := "Initializing analysis agents..." }
  let base := [s1, s2, s3]
  if includeDocs then
    let s4 := { s3 with progress := 20 }
    let s5 := { s4 with message := "Loading uploaded documents..." }
    match env.docIndex with
    | Except.error e => base ++ [s4, s5] ++ failStates s5 e
    | Except.ok idx =>
      match idx with
      | none =>
        let s6 := { s5 with
          message := "No documents found, proceeding without document analysis..." }
        run_analysis_tail ticker env s6 (base ++ [s4, s5, s6])
      | some _ => run_analysis_tail ticker env s5 (base ++ [s4, s5])
  else
    run_analysis_tail ticker env s3 base

/-- State of the job record after `run_analysis` has returned. -/
def runFinal (ticker created : String) (includeDocs : Bool) (env : RunEnv) : Job :=
  (run_analysis ticker includeDocs env (initJob ticker created)).getLastD
    (initJob ticker created)

/-- Job-record states a concurrent reader can observe.  `run_analysis` is
declared `async def` but contains no `await` between its first store
mutation (app.py:133) and its return; under the single-threaded
cooperative event loop that serves every endpoint of this app (all route
handlers are `async def`, and `BackgroundTasks` runs the coroutine on the
same loop), no reader coroutine — `get_analysis_status` or a stream
generator iteration — can be scheduled while `run_analysis` is between
two of its statements.  A read therefore sees the record either as
created (app.py:100-108) or as left by `run_analysis` when it returned. -/
def observableStates (ticker created : String) (includeDocs : Bool) (env : RunEnv) : List Job :=
  [initJob ticker created, runFinal ticker created includeDocs env]

/-- Transition relation of the job lifecycle: a status may stay put, move
from Pending to Processing, or move from Processing to one of the two
terminal states.  Regressions, skipping Processing, and leaving a
terminal state are all excluded. -/
def allowedTransition (a b : Status) : Bool :=
  a == b || (a == Status.pending && b == Status.processing) ||
    (a == Status.processing && (b == Status.completed || b == Status.failed))

/-- The `analysis_jobs` dictionary (app.py:28), as an association list in
insertion order.  Python dictionaries preserve insertion order and the
code never deletes entries. -/
abbrev Store : Type := List (String × Job)

/-- Dictionary lookup `analysis_jobs.get(job_id)`-style read. -/
def lookupJob (s : Store) (id : String) : Option Job :=
  match s with
  | [] => none
  | (k, j) :: rest => if k = id then some j else lookupJob rest id

/-- Replace the record stored under `id`, leaving other entries alone. -/
def setJob (s : Store) (id : String) (j : Job) : Store :=
  match s with
  | [] => []
  | (k, j0) :: rest => if k = id then (k, j) :: rest else (k, j0) :: setJob rest id j

/-- Embedding of a field mutation `analysis_jobs[job_id][...] = v`
(app.py:133-135, 197-199).  Python evaluates `analysis_jobs[job_id]`
first; when the key is absent this raises `KeyError(job_id)`, embedded as
`Except.error id`.  When the key is present the nested dictionary is
mutated in place. -/
def updateJob (s : Store) (id : String) (f : Job → Job) : Except String Store :=
  match lookupJob s id with
  | none => Except.error id
  | some j => Except.ok (setJob s id (f j))

/-- Fields the SSE generator copies out of the record per iteration
(app.py:227-233): status, progress, message, result, error. -/
structure StreamData where
  status : Status
  progress : Nat
  message : String
  result : Option AnalysisResult
  error : Option String
deriving DecidableEq, Repr

/-- Snapshot taken by one iteration of the generator loop. -/
def streamData (j : Job) : StreamData :=
  { status := j.status
    progress := j.progress
    message := j.message
    result := j.result
    error := j.error }

/-- One server-sent event: either the snapshot dictionary (app.py:235) or
the `{"error": "Job not found"}` payload (app.py:223). -/
inductive StreamEvent where
  | jobNotFound : StreamEvent
  | update : StreamData → StreamEvent
deriving DecidableEq, Repr

/-- Embedding of the `generate()` loop of `stream_analysis_status`
(app.py:220-240).  `jobSeq i` is the value `analysis_jobs.get(job_id)`
would return at the loop's i-th iteration (the store may change between
iterations because of the 1-second sleep at app.py:240); `n` is the
current iteration index and `fuel` bounds how many further iterations are
unrolled.  Each iteration: absent id → emit the not-found event and stop;
otherwise emit a snapshot, stop if the status is terminal, else sleep one
interval and loop. -/
def generate (jobSeq : Nat → Option Job) : Nat → Nat → List StreamEvent
  | _, 0 => []
  | n, fuel + 1 =>
    match jobSeq n with
    | none => [StreamEvent.jobNotFound]
    | some j =>
      if j.status.isTerminal then
        [StreamEvent.update (streamData j)]
      else
        StreamEvent.update (streamData j) :: generate jobSeq (n + 1) fuel

/-- Summary dictionary built per job by `get_recent_analyses`
(app.py:249-255). -/
structure JobSummary where
  job_id : String
  stock_ticker : String
  status : Status
  created_at : String
  message : String
deriving DecidableEq, Repr

/-- Projection of one store entry to its summary (app.py:249-255). -/
def jobSummary (id : String) (j : Job) : JobSummary :=
  { job_id := id
    stock_ticker := j.stock_ticker
    status := j.status
    created_at := j.created_at
    message := j.message }

/-- Lexicographic comparison of character sequences by code point — the
order Python uses to compare the `created_at` strings in
`recent.sort(key=..., reverse=True)` (app.py:258). -/
def charListLe : List Char → List Char → Bool
  | [], _ => true
  | _ :: _, [] => false
  | a :: as, b :: bs =>
    if a.toNat < b.toNat then true
    else if b.toNat < a.toNat then false
    else charListLe as bs

/-- String comparison by code points, as Python compares `str` values. -/
def strLe (a b : String) : Bool := charListLe a.toList b.toList

/-- Embedding of `get_recent_analyses` (app.py:244-259): build one summary
per store entry in iteration (= insertion) order, stable-sort by
`created_at` descending (`list.sort(key=..., reverse=True)` is a stable
sort that orders keys non-increasingly), return the first 10. -/
def get_recent_analyses (store : Store) : List JobSummary :=
  let recent := store.map (fun p => jobSummary p.1 p.2)
  (recent.mergeSort (fun a b => strLe b.created_at a.created_at)).take 10

/-- Extension allow-list of `upload_document` (app.py:51). -/
def allowed_extensions : List String := [".pdf", ".docx", ".txt"]

/-- Characters of the last path component: `pathlib.Path(name)` keeps only
the part after the final slash before computing `suffix`. -/
def lastComponent (cs : List Char) : List Char :=
  cs.foldl (fun acc c => if c = '/' then [] else acc ++ [c]) []

/-- Index of the last character satisfying `p`, if any — `str.rfind`. -/
def rfindIdx (p : Char → Bool) (cs : List Char) : Option Nat :=
  match List.findIdx? p cs.reverse with
  | none => none
  | some j => some (cs.length - 1 - j)

/-- Embedding of `pathlib.Path(filename).suffix` (app.py:52): the portion
of the last path component from its final dot on, provided that dot is
neither the component's first character (dotfiles have no suffix) nor its
last; otherwise the empty string. -/
def path_suffix (s : String) : String :=
  let name := lastComponent s.toList
  match rfindIdx (fun c => c = '.') name with
  | none => ""
  | some i => if 0 < i ∧ i < name.length - 1 then String.mk (name.drop i) else ""

/-- Lower-casing via `Char.toLower`, the embedding of `str.lower()`
(app.py:52) on the ASCII extensions the allow-list compares against. -/
def str_lower (s : String) : String := String.mk (s.toList.map Char.toLower)

/-- Exception value of FastAPI's `HTTPException(status_code, detail)`. -/
structure HTTPExn where
  status_code : Nat
  detail : String
deriving DecidableEq, Repr

/-- Stringification `str(e)` of an `HTTPException` (starlette renders it
as `f"{status_code}: {detail}"`). -/
def httpExnStr (e : HTTPExn) : String :=
  Nat.repr e.status_code ++ ": " ++ e.detail

/-- Success payload of `upload_document` (app.py:83-87). -/
structure UploadOk where
  success : Bool
  filename : String
  message : String
deriving DecidableEq, Repr

/-- Body of the `try` block of `upload_document` (app.py:49-87): validate
the extension — raising `HTTPException(400, ...)` when it is outside the
allow-list — then save the file under `{timestamp}_{filename}` and return
the success payload.  The value also carries the list of files written
(the only raise sits before the write, so a raising run writes nothing).
The ChromaDB re-initialization side effect for `.pdf` uploads (app.py:81)
touches no state this development models. -/
def upload_document_body (filename timestamp : String) :
    Except HTTPExn (UploadOk × List String) :=
  let file_extension := str_lower (path_suffix filename)
  if file_extension ∈ allowed_extensions then
    let fname := timestamp ++ "_" ++ filename
    Except.ok
      ({ success := true, filename := fname, message := "Document uploaded successfully" },
        [fname])
  else
    Except.error
      { status_code := 400
        detail := "File type not allowed. Allowed types: " ++
          String.intercalate ", " allowed_extensions }

/-- Embedding of `upload_document` (app.py:46-90): the `try` body wrapped
in the blanket handler `except Exception as e: raise HTTPException(500,
str(e))` (app.py:89-90).  `HTTPException` subclasses `Exception`, so the
400 raised by the validation branch is caught here too and re-raised with
status 500.  The second component lists the files written. -/
def upload_document (filename timestamp : String) :
    Except HTTPExn UploadOk × List String :=
  match upload_document_body filename timestamp with
  | Except.ok (r, written) => (Except.ok r, written)
  | Except.error e => (Except.error { status_code := 500, detail := httpExnStr e }, [])

/-! Scenario lemmas: the record state in which `run_analysis` returns, in
each of the five shapes an execution can take. -/

lemma runFinal_ok_noDocs (t c now r : String) (di : Except String (Option Unit)) :
    runFinal t c false { docIndex := di, kickoff := Except.ok r, now := now } =
      { status := Status.completed, progress := 100,
        message := "Analysis completed successfully", stock_ticker := t, created_at := c,
        result := some { stock_ticker := t, timestamp := now, summary := r },
        error := none } := rfl

lemma runFinal_ok_docs (t c now r : String) (idx : Option Unit) :
    runFinal t c true { docIndex := Except.ok idx, kickoff := Except.ok r, now := now } =
      { status := Status.completed, progress := 100,
        message := "Analysis completed successfully", stock_ticker := t, created_at := c,
        result := some { stock_ticker := t, timestamp := now, summary := r },
        error := none } := by
  cases idx <;> rfl

lemma runFinal_err_kickoff_noDocs (t c now e : String) (di : Except String (Option Unit)) :
    runFinal t c false { docIndex := di, kickoff := Except.error e, now := now } =
      { status := Status.failed, progress := 50, message := "Analysis failed: " ++ e,
        stock_ticker := t, created_at := c, result := none, error := some e } := rfl

lemma runFinal_err_kickoff_docs (t c now e : String) (idx : Option Unit) :
    runFinal t c true { docIndex := Except.ok idx, kickoff := Except.error e, now := now } =
      { status := Status.failed, progress := 50, message := "Analysis failed: " ++ e,
        stock_ticker := t, created_at := c, result := none, error := some e } := by
  cases idx <;> rfl

lemma runFinal_err_docIndex (t c now e : String) (ko : Except String String) :
    runFinal t c true { docIndex := Except.error e, kickoff := ko, now := now } =
      { status := Status.failed, progress := 20, message := "Analysis failed: " ++ e,
        stock_ticker := t, created_at := c, result := none, error := some e } := by
  cases ko <;> rfl

/-- C1: at every record state a concurrent reader can observe (the state
at creation and the state `run_analysis` leaves behind; see
`observableStates` for why no intermediate state is observable), `result`
is non-none exactly when the status is Completed and `error` is non-none
exactly when the status is Failed — so at most one of the two is set, and
only in the corresponding terminal state. -/
theorem result_error_iff_status (t c : String) (includeDocs : Bool) (env : RunEnv)
    (s : Job) (hs : s ∈ observableStates t c includeDocs env) :
    (s.result ≠ none ↔ s.status = Status.completed) ∧
      (s.error ≠ none ↔ s.status = Status.failed) := by
  rcases env with ⟨di, ko, now⟩
  simp only [observableStates, List.mem_cons, List.mem_singleton, List.not_mem_nil,
    or_false] at hs
  rcases hs with rfl | rfl
  · simp [initJob]
  · cases includeDocs
    · rcases ko with e | r
      · rw [runFinal_err_kickoff_noDocs]; simp
      · rw [runFinal_ok_noDocs]; simp
    · rcases di with e | idx
      · rw [runFinal_err_docIndex]; simp
      · rcases ko with e | r
        · rw [runFinal_err_kickoff_docs]; simp
        · rw [runFinal_ok_docs]; simp

/-- Witness for C1 at a concrete observation point. -/
theorem result_error_iff_status_witness :
    (((initJob "ACME" "t0").result ≠ none ↔ (initJob "ACME" "t0").status = Status.completed) ∧
      ((initJob "ACME" "t0").error ≠ none ↔ (initJob "ACME" "t0").status = Status.failed)) :=
  result_error_iff_status "ACME" "t0" false
    { docIndex := Except.ok none, kickoff := Except.ok "summary", now := "T" }
    (initJob "ACME" "t0") (by simp [observableStates])

/-- C2: along the whole per-assignment state trace of `run_analysis`, the
status field only ever takes steps allowed by the lifecycle order
Pending → Processing → (Completed or Failed): it never regresses, never
leaves a terminal state, and the first change out of Pending is always to
Processing.  The trace ends when `run_analysis` returns and the job is
never run again, so no transition happens after it. -/
theorem status_transitions (t c : String) (includeDocs : Bool) (env : RunEnv) :
    List.Chain (fun a b => allowedTransition a b = true) (initJob t c).status
      ((run_analysis t includeDocs env (initJob t c)).map Job.status) := by
  rcases env with ⟨di, ko, now⟩
  cases includeDocs
  · rcases ko with e | r <;>
      simp [run_analysis, run_analysis_tail, failStates, initJob] <;> decide
  · rcases di with e | idx
    · simp [run_analysis, run_analysis_tail, failStates, initJob]
      decide
    · rcases idx with _ | _ <;> rcases ko with e | r <;>
        simp [run_analysis, run_analysis_tail, failStates, initJob] <;> decide

/-- C3: a successful execution performs exactly the checkpoint sequence
the claim lists.  Each list below is the (status, progress, message,
result) view of the record after every dictionary assignment of
`run_analysis`, in order: the Processing,progress-10 checkpoint, the
progress-20 document checkpoint only when includeDocs is true (with the
message switching to the "No documents found..." text when the
document-index collaborator returns none, execution continuing), then the
progress-30 and progress-50 checkpoints (the analysis collaborator being
invoked after the latter), the progress-80 checkpoint, and finally
Completed at progress 100 with the result `{tickerSymbol, timestamp,
summary}`.  The first conjunct quantifies over an arbitrary document
collaborator outcome `di` to record that it is not invoked at all when
includeDocs is false. -/
theorem checkpoint_sequence (t c now r : String) (di : Except String (Option Unit)) :
    ((run_analysis t false { docIndex := di, kickoff := Except.ok r, now := now }
        (initJob t c)).map (fun s => (s.status, s.progress, s.message, s.result)) =
      [(Status.processing, 0, "Analysis job created", none),
        (Status.processing, 10, "Analysis job created", none),
        (Status.processing, 10, "Initializing analysis agents...", none),
        (Status.processing, 30, "Initializing analysis agents...", none),
        (Status.processing, 30, "Starting fundamental analysis...", none),
        (Status.processing, 50, "Starting fundamental analysis...", none),
        (Status.processing, 50, "Performing valuation analysis...", none),
        (Status.processing, 80, "Performing valuation analysis...", none),
        (Status.processing, 80, "Analyzing market sentiment...", none),
        (Status.completed, 80, "Analyzing market sentiment...", none),
        (Status.completed, 100, "Analyzing market sentiment...", none),
        (Status.completed, 100, "Analysis completed successfully", none),
        (Status.completed, 100, "Analysis completed successfully",
          some { stock_ticker := t, timestamp := now, summary := r })]) ∧
      ((run_analysis t true
          { docIndex := Except.ok (some ()), kickoff := Except.ok r, now := now }
          (initJob t c)).map (fun s => (s.status, s.progress, s.message, s.result)) =
        [(Status.processing, 0, "Analysis job created", none),
          (Status.processing, 10, "Analysis job created", none),
          (Status.processing, 10, "Initializing analysis agents...", none),
          (Status.processing, 20, "Initializing analysis agents...", none),
          (Status.processing, 20, "Loading uploaded documents...", none),
          (Status.processing, 30, "Loading uploaded documents...", none),
          (Status.processing, 30, "Starting fundamental analysis...", none),
          (Status.processing, 50, "Starting fundamental analysis...", none),
          (Status.processing, 50, "Performing valuation analysis...", none),
          (Status.processing, 80, "Performing valuation analysis...", none),
          (Status.processing, 80, "Analyzing market sentiment...", none),
          (Status.completed, 80, "Analyzing market sentiment...", none),
          (Status.completed, 100, "Analyzing market sentiment...", none),
          (Status.completed, 100, "Analysis completed successfully", none),
          (Status.completed, 100, "Analysis completed successfully",
            some { stock_ticker := t, timestamp := now, summary := r })]) ∧
      ((run_analysis t true
          { docIndex := Except.ok none, kickoff := Except.ok r, now := now }
          (initJob t c)).map (fun s => (s.status, s.progress, s.message, s.result)) =
        [(Status.processing, 0, "Analysis job created", none),
          (Status.processing, 10, "Analysis job created", none),
          (Status.processing, 10, "Initializing analysis agents...", none),
          (Status.processing, 20, "Initializing analysis agents...", none),
          (Status.processing, 20, "Loading uploaded documents...", none),
          (Status.processing, 20,
            "No documents found, proceeding without document analysis...", none),
          (Status.processing, 30,
            "No documents found, proceeding without document analysis...", none),
          (Status.processing, 30, "Starting fundamental analysis...", none),
          (Status.processing, 50, "Starting fundamental analysis...", none),
          (Status.processing, 50, "Performing valuation analysis...", none),
          (Status.processing, 80, "Performing valuation analysis...", none),
          (Status.processing, 80, "Analyzing market sentiment...", none),
          (Status.completed, 80, "Analyzing market sentiment...", none),
          (Status.completed, 100, "Analyzing market sentiment...", none),
          (Status.completed, 100, "Analysis completed successfully", none),
          (Status.completed, 100, "Analysis completed successfully",
            some { stock_ticker := t, timestamp := now, summary := r })]) :=
  ⟨rfl, rfl, rfl⟩

/-- C4: whenever one of the two collaborators fails during an execution —
the document-index call (reached only when includeDocs is true), or the
analysis call (reached whenever the document call did not already fail) —
the record `run_analysis` leaves behind has status Failed, carries the
error description in `error`, keeps `result` at none, and has the failure
summary as its message.  `run_analysis` itself is a total function into
state traces: the exception is consumed by the `except` block and never
escapes to the HTTP caller, and nothing in the code ever re-runs a job. -/
theorem failure_recorded (t c : String) (includeDocs : Bool) (env : RunEnv) (e : String)
    (h : (includeDocs = true ∧ env.docIndex = Except.error e) ∨
      (env.kickoff = Except.error e ∧
        (includeDocs = false ∨ ∃ idx, env.docIndex = Except.ok idx))) :
    (runFinal t c includeDocs env).status = Status.failed ∧
      (runFinal t c includeDocs env).error = some e ∧
      (runFinal t c includeDocs env).result = none ∧
      (runFinal t c includeDocs env).message = "Analysis failed: " ++ e := by
  rcases env with ⟨di, ko, now⟩
  rcases h with ⟨hdocs, hdi⟩ | ⟨hko, hcase⟩
  · subst hdocs
    simp only at hdi
    subst hdi
    rw [runFinal_err_docIndex]
    simp
  · simp only at hko
    subst hko
    rcases hcase with hfalse | ⟨idx, hdi⟩
    · subst hfalse
      rw [runFinal_err_kickoff_noDocs]
      simp
    · simp only at hdi
      subst hdi
      cases includeDocs
      · rw [runFinal_err_kickoff_noDocs]
        simp
      · rw [runFinal_err_kickoff_docs]
        simp

/-- Witness for C4: the analysis collaborator raises "timeout". -/
theorem failure_recorded_witness :
    (runFinal "ACME" "t0" false
        { docIndex := Except.ok none, kickoff := Except.error "timeout", now := "T" }).status =
        Status.failed ∧
      (runFinal "ACME" "t0" false
        { docIndex := Except.ok none, kickoff := Except.error "timeout", now := "T" }).error =
        some "timeout" ∧
      (runFinal "ACME" "t0" false
        { docIndex := Except.ok none, kickoff := Except.error "timeout", now := "T" }).result =
        none ∧
      (runFinal "ACME" "t0" false
        { docIndex := Except.ok none, kickoff := Except.error "timeout", now := "T" }).message =
        "Analysis failed: " ++ "timeout" :=
  failure_recorded "ACME" "t0" false
    { docIndex := Except.ok none, kickoff := Except.error "timeout", now := "T" } "timeout"
    (Or.inr ⟨rfl, Or.inl rfl⟩)

/-- C5 (failing input): uploading a file with extension `.exe` — outside
the allow-list — writes no file, but the response is NOT a client error:
the `HTTPException(400, ...)` raised by the validation branch is caught by
the blanket `except Exception` at app.py:89 (HTTPException subclasses
Exception) and re-raised as a 500 server error whose detail embeds the
validation message.  The claim and the code's own 400 at app.py:55-58
agree that this should surface as a client error; the catch-all defeats
it. -/
theorem upload_bad_extension_surfaces_500 (timestamp : String) :
    upload_document "malware.exe" timestamp =
      (Except.error
          { status_code := 500
            detail := "400: File type not allowed. Allowed types: .pdf, .docx, .txt" },
        ([] : List String)) := rfl

/-- C9: progress starts at 0, never decreases across the per-assignment
state trace of `run_analysis` (so in particular never decreases between
any two coarser observations), never exceeds 100 (it is a `Nat`, hence
also never below 0), and — at the record states a reader can actually
observe (see `observableStates`) — equals 100 exactly when the status is
Completed. -/
theorem progress_spec (t c : String) (includeDocs : Bool) (env : RunEnv) :
    List.Chain (fun a b : Nat => a ≤ b) (initJob t c).progress
        ((run_analysis t includeDocs env (initJob t c)).map Job.progress) ∧
      (∀ s ∈ run_analysis t includeDocs env (initJob t c), s.progress ≤ 100) ∧
      (∀ s ∈ observableStates t c includeDocs env,
        (s.progress = 100 ↔ s.status = Status.completed)) := by
  rcases env with ⟨di, ko, now⟩
  refine ⟨?_, ?_, ?_⟩
  · cases includeDocs
    · rcases ko with e | r <;>
        simp [run_analysis, run_analysis_tail, failStates, initJob]
    · rcases di with e | idx
      · simp [run_analysis, run_analysis_tail, failStates, initJob]
      · rcases idx with _ | _ <;> rcases ko with e | r <;>
          simp [run_analysis, run_analysis_tail, failStates, initJob]
  · cases includeDocs
    · rcases ko with e | r <;>
        simp [run_analysis, run_analysis_tail, failStates, initJob]
    · rcases di with e | idx
      · simp [run_analysis, run_analysis_tail, failStates, initJob]
      · rcases idx with _ | _ <;> rcases ko with e | r <;>
          simp [run_analysis, run_analysis_tail, failStates, initJob]
  · intro s hs
    simp only [observableStates, List.mem_cons, List.mem_singleton, List.not_mem_nil,
      or_false] at hs
    rcases hs with rfl | rfl
    · simp [initJob]
    · cases includeDocs
      · rcases ko with e | r
        · rw [runFinal_err_kickoff_noDocs]; simp
        · rw [runFinal_ok_noDocs]; simp
      · rcases di with e | idx
        · rw [runFinal_err_docIndex]; simp
        · rcases ko with e | r
          · rw [runFinal_err_kickoff_docs]; simp
          · rw [runFinal_ok_docs]; simp

/-- Witness for C9 at a concrete execution. -/
theorem progress_spec_witness :
    List.Chain (fun a b : Nat => a ≤ b) (initJob "ACME" "t0").progress
        ((run_analysis "ACME" false
          { docIndex := Except.ok none, kickoff := Except.ok "summary", now := "T" }
          (initJob "ACME" "t0")).map Job.progress) ∧
      (∀ s ∈ run_analysis "ACME" false
          { docIndex := Except.ok none, kickoff := Except.ok "summary", now := "T" }
          (initJob "ACME" "t0"), s.progress ≤ 100) ∧
      (∀ s ∈ observableStates "ACME" "t0" false
          { docIndex := Except.ok none, kickoff := Except.ok "summary", now := "T" },
        (s.progress = 100 ↔ s.status = Status.completed)) :=
  progress_spec "ACME" "t0" false
    { docIndex := Except.ok none, kickoff := Except.ok "summary", now := "T" }

/-- C10: in every failing execution, the `except` block changes only the
status, error and message fields of the record: the final state is the
creation record with progress advanced to the last checkpoint reached
before the failure — 20 when the document-index collaborator failed, 50
when the analysis collaborator failed, both in the checkpoint set
{0, 10, 20, 30, 50, 80} — and with status/error/message overwritten,
while `tickerSymbol`, `createdAt` and `result` keep their creation
values. -/
theorem failure_frame (t c now e : String) (ko : Except String String)
    (di : Except String (Option Unit)) (idx : Option Unit) :
    runFinal t c true { docIndex := Except.error e, kickoff := ko, now := now } =
        { status := Status.failed, progress := 20, message := "Analysis failed: " ++ e,
          stock_ticker := t, created_at := c, result := none, error := some e } ∧
      runFinal t c false { docIndex := di, kickoff := Except.error e, now := now } =
        { status := Status.failed, progress := 50, message := "Analysis failed: " ++ e,
          stock_ticker := t, created_at := c, result := none, error := some e } ∧
      runFinal t c true { docIndex := Except.ok idx, kickoff := Except.error e, now := now } =
        { status := Status.failed, progress := 50, message := "Analysis failed: " ++ e,
          stock_ticker := t, created_at := c, result := none, error := some e } :=
  ⟨runFinal_err_docIndex t c now e ko, runFinal_err_kickoff_noDocs t c now e di,
    runFinal_err_kickoff_docs t c now e idx⟩

/-- C7 (counterexample): an update applied with an id absent from the
store is NOT a silent no-op — the dictionary lookup
`analysis_jobs[job_id]` raises `KeyError` before the field assignment can
happen, so the operation does not return normally with the store
unchanged. -/
theorem update_absent_claim_false :
    ¬ (updateJob [] "job-1" (fun j => { j with status := Status.processing }) =
        Except.ok ([] : Store)) := by
  simp [updateJob, lookupJob]

/-- C7 (amended): an update applied with an id absent from the store
raises `KeyError(id)` and modifies nothing — it fails loudly, not
silently.  (Inside `run_analysis` such a KeyError from the checkpoint
updates would be caught by the `except` block, whose own first update
raises the same KeyError out of the background task; the situation is
unreachable in the actual lifecycle because `analyze_stock` inserts the
record before scheduling the task and nothing deletes records.) -/
theorem update_absent_raises (s : Store) (id : String) (f : Job → Job)
    (h : lookupJob s id = none) : updateJob s id f = Except.error id := by
  simp [updateJob, h]

/-- Witness for the amended C7 on the empty store. -/
theorem update_absent_raises_witness :
    updateJob [] "job-1" (fun j => { j with status := Status.processing }) =
      Except.error "job-1" :=
  update_absent_raises [] "job-1" (fun j => { j with status := Status.processing }) rfl

lemma charListLe_total : ∀ x y : List Char, (charListLe x y || charListLe y x) = true := by
  intro x
  induction x with
  | nil => intro y; simp [charListLe]
  | cons a as ih =>
    intro y
    cases y with
    | nil => simp [charListLe]
    | cons b bs =>
      simp only [charListLe]
      by_cases h1 : a.toNat < b.toNat
      · simp [h1]
      · by_cases h2 : b.toNat < a.toNat
        · simp [h1, h2]
        · simp [h1, h2, ih bs]

lemma charListLe_trans : ∀ x y z : List Char, charListLe x y = true → charListLe y z = true →
    charListLe x z = true := by
  intro x
  induction x with
  | nil => intro y z _ _; simp [charListLe]
  | cons a as ih =>
    intro y z h1 h2
    cases y with
    | nil => simp [charListLe] at h1
    | cons b bs =>
      cases z with
      | nil => simp [charListLe] at h2
      | cons d ds =>
        simp only [charListLe] at h1 h2 ⊢
        by_cases hab : a.toNat < b.toNat
        · rw [if_pos hab] at h1
          by_cases hbd : b.toNat < d.toNat
          · have had : a.toNat < d.toNat := by omega
            simp [had]
          · rw [if_neg hbd] at h2
            by_cases hdb : d.toNat < b.toNat
            · rw [if_pos hdb] at h2
              exact absurd h2 (by simp)
            · have had : a.toNat < d.toNat := by omega
              simp [had]
        · rw [if_neg hab] at h1
          by_cases hba : b.toNat < a.toNat
          · rw [if_pos hba] at h1
            exact absurd h1 (by simp)
          · rw [if_neg hba] at h1
            by_cases hbd : b.toNat < d.toNat
            · have had : a.toNat < d.toNat := by omega
              simp [had]
            · rw [if_neg hbd] at h2
              by_cases hdb : d.toNat < b.toNat
              · rw [if_pos hdb] at h2
                exact absurd h2 (by simp)
              · rw [if_neg hdb] at h2
                have h3 : ¬ a.toNat < d.toNat := by omega
                have h4 : ¬ d.toNat < a.toNat := by omega
                rw [if_neg h3, if_neg h4]
                exact ih bs ds h1 h2

lemma summaryLe_trans (a b d : JobSummary) (hab : strLe b.created_at a.created_at = true)
    (hbd : strLe d.created_at b.created_at = true) : strLe d.created_at a.created_at = true :=
  charListLe_trans _ _ _ hbd hab

lemma summaryLe_total (a b : JobSummary) :
    (strLe b.created_at a.created_at || strLe a.created_at b.created_at) = true :=
  charListLe_total _ _

/-- C8: for every store contents, the recent-analyses listing has at most
10 entries, consecutive entries are ordered by `created_at` descending
(each entry's timestamp is at least the next one's in the code-point
order Python uses on strings), and every entry is the summary of an entry
of the store. -/
theorem recent_analyses_spec (store : Store) :
    (get_recent_analyses store).length ≤ 10 ∧
      List.Pairwise (fun a b => strLe b.created_at a.created_at = true)
        (get_recent_analyses store) ∧
      ∀ x ∈ get_recent_analyses store, ∃ p ∈ store, x = jobSummary p.1 p.2 := by
  refine ⟨?_, ?_, ?_⟩
  · simp only [get_recent_analyses]
    exact List.length_take_le _ _
  · simp only [get_recent_analyses]
    refine List.Pairwise.sublist (List.take_sublist _ _) ?_
    exact List.sorted_mergeSort summaryLe_trans summaryLe_total _
  · intro x hx
    simp only [get_recent_analyses] at hx
    have hx1 := List.take_subset _ _ hx
    have hx2 := (List.mergeSort_perm (store.map fun p => jobSummary p.1 p.2)
      (fun a b => strLe b.created_at a.created_at)).subset hx1
    rcases List.mem_map.mp hx2 with ⟨p, hp, rfl⟩
    exact ⟨p, hp, rfl⟩

/-- Witness for C8 on a concrete two-job store. -/
theorem recent_analyses_spec_witness :
    (get_recent_analyses
        [("job-a", initJob "AAA" "2024-01-01"), ("job-b", initJob "BBB" "2024-02-01")]).length ≤
        10 ∧
      List.Pairwise (fun a b => strLe b.created_at a.created_at = true)
        (get_recent_analyses
          [("job-a", initJob "AAA" "2024-01-01"), ("job-b", initJob "BBB" "2024-02-01")]) ∧
      ∀ x ∈ get_recent_analyses
          [("job-a", initJob "AAA" "2024-01-01"), ("job-b", initJob "BBB" "2024-02-01")],
        ∃ p ∈ [("job-a", initJob "AAA" "2024-01-01"), ("job-b", initJob "BBB" "2024-02-01")],
          x = jobSummary p.1 p.2 :=
  recent_analyses_spec [("job-a", initJob "AAA" "2024-01-01"), ("job-b", initJob "BBB" "2024-02-01")]

lemma generate_terminal_run (jobSeq : Nat → Option Job) (js : Nat → Job) :
    ∀ k n fuel, (∀ i, n ≤ i → i ≤ n + k → jobSeq i = some (js i)) →
      (∀ i, n ≤ i → i < n + k → (js i).status.isTerminal = false) →
      (js (n + k)).status.isTerminal = true → k < fuel →
      generate jobSeq n fuel =
        (List.range (k + 1)).map (fun i => StreamEvent.update (streamData (js (n + i)))) := by
  intro k
  induction k with
  | zero =>
    intro n fuel hsome _ ht hfuel
    obtain ⟨f, rfl⟩ : ∃ f, fuel = f + 1 := ⟨fuel - 1, by omega⟩
    have h0 : jobSeq n = some (js n) := hsome n le_rfl (by omega)
    have ht0 : (js n).status.isTerminal = true := by simpa using ht
    simp [generate, h0, ht0, List.range_succ]
  | succ k ih =>
    intro n fuel hsome hnt ht hfuel
    obtain ⟨f, rfl⟩ : ∃ f, fuel = f + 1 := ⟨fuel - 1, by omega⟩
    have h0 : jobSeq n = some (js n) := hsome n le_rfl (by omega)
    have hnt0 : (js n).status.isTerminal = false := hnt n le_rfl (by omega)
    have harg : n + 1 + k = n + (k + 1) := by omega
    have hrec := ih (n + 1) f
      (fun i h1 h2 => hsome i (by omega) (by omega))
      (fun i h1 h2 => hnt i (by omega) (by omega))
      (by rw [harg]; exact ht) (by omega)
    simp only [generate, h0, hnt0, Bool.false_eq_true, if_false]
    rw [List.range_succ_eq_map]
    simp only [List.map_cons, List.map_map, Nat.add_zero, Function.comp]
    congr 1
    rw [hrec]
    apply List.map_congr_left
    intro i _
    exact congrArg (fun m => StreamEvent.update (streamData (js m))) (by omega)

/-- C6: the stream generator (i) on an id absent from the store emits the
single not-found event and terminates at once, whatever fuel remains;
(ii) on a job that is already terminal emits exactly one snapshot and
terminates, never looping past completion; (iii) in general, when the
observed record is non-terminal for the first k one-second intervals and
terminal at interval k, it emits exactly one snapshot of the record per
interval — k non-terminal snapshots followed by the one terminal
snapshot — and terminates, with the output independent of any additional
fuel. -/
theorem stream_status_spec :
    (∀ (jobSeq : Nat → Option Job) (fuel : Nat), jobSeq 0 = none →
        generate jobSeq 0 (fuel + 1) = [StreamEvent.jobNotFound]) ∧
      (∀ (jobSeq : Nat → Option Job) (j : Job) (fuel : Nat), jobSeq 0 = some j →
        j.status.isTerminal = true →
        generate jobSeq 0 (fuel + 1) = [StreamEvent.update (streamData j)]) ∧
      (∀ (jobSeq : Nat → Option Job) (js : Nat → Job) (k fuel : Nat),
        (∀ i, i ≤ k → jobSeq i = some (js i)) →
        (∀ i, i < k → (js i).status.isTerminal = false) →
        (js k).status.isTerminal = true → k < fuel →
        generate jobSeq 0 fuel =
          (List.range (k + 1)).map (fun i => StreamEvent.update (streamData (js i)))) := by
  refine ⟨?_, ?_, ?_⟩
  · intro jobSeq fuel h
    simp [generate, h]
  · intro jobSeq j fuel h ht
    simp [generate, h, ht]
  · intro jobSeq js k fuel hsome hnt ht hfuel
    have h := generate_terminal_run jobSeq js k 0 fuel
      (fun i _ h2 => hsome i (by omega)) (fun i _ h2 => hnt i (by omega))
      (by simpa using ht) hfuel
    simpa using h

/-- Witness for C6: an absent id, an already-terminal job, and a job that
is pending for one interval and then completed. -/
theorem stream_status_spec_witness :
    generate (fun _ => none) 0 (3 + 1) = [StreamEvent.jobNotFound] ∧
      generate
          (fun _ => some (runFinal "ACME" "t0" false
            { docIndex := Except.ok none, kickoff := Except.ok "s", now := "T" }))
          0 (3 + 1) =
        [StreamEvent.update (streamData (runFinal "ACME" "t0" false
          { docIndex := Except.ok none, kickoff := Except.ok "s", now := "T" }))] ∧
      generate
          (fun i => some (if i = 0 then initJob "ACME" "t0" else
            runFinal "ACME" "t0" false
              { docIndex := Except.ok none, kickoff := Except.ok "s", now := "T" }))
          0 3 =
        (List.range (1 + 1)).map (fun i => StreamEvent.update (streamData
          (if i = 0 then initJob "ACME" "t0" else
            runFinal "ACME" "t0" false
              { docIndex := Except.ok none, kickoff := Except.ok "s", now := "T" }))) :=
  ⟨stream_status_spec.1 (fun _ => none) 3 rfl,
    stream_status_spec.2.1
      (fun _ => some (runFinal "ACME" "t0" false
        { docIndex := Except.ok none, kickoff := Except.ok "s", now := "T" }))
      (runFinal "ACME" "t0" false
        { docIndex := Except.ok none, kickoff := Except.ok "s", now := "T" })
      3 rfl rfl,
    stream_status_spec.2.2
      (fun i => some (if i = 0 then initJob "ACME" "t0" else
        runFinal "ACME" "t0" false
          { docIndex := Except.ok none, kickoff := Except.ok "s", now := "T" }))
      (fun i => if i = 0 then initJob "ACME" "t0" else
        runFinal "ACME" "t0" false
          { docIndex := Except.ok none, kickoff := Except.ok "s", now := "T" })
      1 3 (fun i _ => rfl)
      (fun i hi => by
        have h0 : i = 0 := by omega
        subst h0
        rfl)
      rfl (by omega)⟩

end AlphaAgent
